import Mathlib

/-!
Verification of the fractal3D renderer (src/main.rs) against its
natural-language specification.

The control path of the program mutates a single `MandelbulbMaterial`
record each tick: `update_material` applies the time-driven animation
overrides, `mouse_controls` applies pointer-drag rotation, and
`ui_controls` applies clamped slider writes; `manage_rendering_mode`
picks the winit update cadence from the animation settings.  Floating
point values are modelled as real numbers, `u32` fields as naturals.
Quaternions follow the x, y, z, w component layout of the glam library
used by the program.
-/

namespace Fractal3D

/-- Quaternion with the component layout of glam `Quat` (x, y, z, w). -/
structure Quat where
  x : ℝ
  y : ℝ
  z : ℝ
  w : ℝ

/-- Hamilton product, component for component as glam `Quat::mul`. -/
def Quat.mul (p q : Quat) : Quat where
  x := p.w * q.x + p.x * q.w + p.y * q.z - p.z * q.y
  y := p.w * q.y - p.x * q.z + p.y * q.w + p.z * q.x
  z := p.w * q.z + p.x * q.y - p.y * q.x + p.z * q.w
  w := p.w * q.w - p.x * q.x - p.y * q.y - p.z * q.z

instance : Mul Quat := ⟨Quat.mul⟩

theorem Quat.mul_def (p q : Quat) : p * q = Quat.mul p q := rfl

/-- Squared Euclidean norm of the four components. -/
def Quat.normSq (q : Quat) : ℝ := q.x ^ 2 + q.y ^ 2 + q.z ^ 2 + q.w ^ 2

/-- Euclidean norm, glam `Quat::length`. -/
noncomputable def Quat.length (q : Quat) : ℝ := Real.sqrt q.normSq

/-- glam `Quat::normalize`: divide every component by the length. -/
noncomputable def Quat.normalize (q : Quat) : Quat :=
  ⟨q.x / q.length, q.y / q.length, q.z / q.length, q.w / q.length⟩

/-- glam `Quat::from_rotation_x`: rotation about the horizontal axis. -/
noncomputable def Quat.fromRotationX (a : ℝ) : Quat :=
  ⟨Real.sin (a / 2), 0, 0, Real.cos (a / 2)⟩

/-- glam `Quat::from_rotation_y`: rotation about the vertical axis. -/
noncomputable def Quat.fromRotationY (a : ℝ) : Quat :=
  ⟨0, Real.sin (a / 2), 0, Real.cos (a / 2)⟩

/-- glam `Quat::IDENTITY`. -/
def Quat.identity : Quat := ⟨0, 0, 0, 1⟩

theorem Quat.normSq_nonneg (q : Quat) : 0 ≤ q.normSq := by
  unfold Quat.normSq; positivity

/-- The squared norm is multiplicative (the four-square identity). -/
theorem Quat.normSq_mul (p q : Quat) : (p * q).normSq = p.normSq * q.normSq := by
  simp only [Quat.mul_def, Quat.mul, Quat.normSq]
  ring

theorem Quat.normSq_fromRotationX (a : ℝ) : (Quat.fromRotationX a).normSq = 1 := by
  simp only [Quat.fromRotationX, Quat.normSq]
  have h := Real.sin_sq_add_cos_sq (a / 2)
  nlinarith [h]

theorem Quat.normSq_fromRotationY (a : ℝ) : (Quat.fromRotationY a).normSq = 1 := by
  simp only [Quat.fromRotationY, Quat.normSq]
  have h := Real.sin_sq_add_cos_sq (a / 2)
  nlinarith [h]

theorem Quat.normSq_normalize (q : Quat) (h : 0 < q.normSq) :
    q.normalize.normSq = 1 := by
  have hlen : q.length ^ 2 = q.normSq := Real.sq_sqrt (le_of_lt h)
  have hne : q.length ≠ 0 := by
    simp only [Quat.length]
    exact ne_of_gt (Real.sqrt_pos.mpr h)
  simp only [Quat.normalize, Quat.normSq, div_pow]
  field_simp
  calc q.x ^ 2 + q.y ^ 2 + q.z ^ 2 + q.w ^ 2 = q.normSq := by simp [Quat.normSq]
    _ = q.length ^ 2 := hlen.symm

theorem Quat.length_of_normSq_one (q : Quat) (h : q.normSq = 1) : q.length = 1 := by
  simp [Quat.length, h]

/-- Four-component float vector (glam `Vec4`); carries the Julia constant
in x, y, z and the Julia-enabled flag in w. -/
structure Vec4 where
  x : ℝ
  y : ℝ
  z : ℝ
  w : ℝ

/-- The `SimSettings` resource of src/main.rs. -/
structure SimSettings where
  rotation_speed : ℝ
  animate_zoom : Bool
  zoom_speed : ℝ
  animate_power : Bool
  power_speed : ℝ

/-- The uniform parameter record `MandelbulbMaterial` of src/main.rs.
The quaternion is stored in the material as a `Vec4`; `Quat::from_vec4`
and `Vec4::from` are component-identities, so it is kept as `Quat` here. -/
structure MandelbulbMaterial where
  resolution : ℝ × ℝ
  power : ℝ
  ray_steps : ℕ
  mandel_iters : ℕ
  max_dist : ℝ
  hit_threshold : ℝ
  camera_zoom : ℝ
  palette_id : ℕ
  light_pos_x : ℝ
  light_pos_y : ℝ
  background_glow_intensity : ℝ
  color_scale : ℝ
  color_offset : ℝ
  ao_strength : ℝ
  rim_strength : ℝ
  rotation : Quat
  julia : Vec4

/-- The material spawned by `setup` in src/main.rs. -/
def initialMaterial (win : ℝ × ℝ) : MandelbulbMaterial where
  resolution := win
  power := 8
  ray_steps := 100
  mandel_iters := 20
  max_dist := 40
  hit_threshold := 0.002
  camera_zoom := 2.5
  palette_id := 0
  light_pos_x := 2
  light_pos_y := 4
  background_glow_intensity := 0
  color_scale := 1
  color_offset := 0
  ao_strength := 1
  rim_strength := 0.5
  rotation := Quat.identity
  julia := ⟨0.35, 0.35, -0.35, 0⟩

/-- Power-animation branch of `update_material` (src/main.rs lines 121 to
128): when `animate_power` is set, store
`power = 16 ^ (0.5 + 0.5 * sin (elapsed * 0.1 * power_speed))`. -/
noncomputable def apply_power_anim (t : ℝ) (settings : SimSettings)
    (m : MandelbulbMaterial) : MandelbulbMaterial :=
  if settings.animate_power then
    { m with power := (16 : ℝ) ^ (0.5 + 0.5 * Real.sin (t * 0.1 * settings.power_speed)) }
  else m

/-- Automatic-rotation branch of `update_material` (src/main.rs lines 130
to 139): when `rotation_speed > 0`, pre-multiply the incremental yaw and
pitch rotations of angle `rotation_speed * dt` and renormalize. -/
noncomputable def apply_auto_rotation (dt : ℝ) (settings : SimSettings)
    (m : MandelbulbMaterial) : MandelbulbMaterial :=
  if 0 < settings.rotation_speed then
    { m with rotation :=
        (Quat.fromRotationY (settings.rotation_speed * dt) *
          Quat.fromRotationX (settings.rotation_speed * dt) * m.rotation).normalize }
  else m

/-- Zoom-animation branch of `update_material` (src/main.rs lines 141 to
144). -/
noncomputable def apply_zoom_anim (t : ℝ) (settings : SimSettings)
    (m : MandelbulbMaterial) : MandelbulbMaterial :=
  if settings.animate_zoom then
    { m with camera_zoom := 2.75 + Real.sin (t * settings.zoom_speed) * 0.25 }
  else m

/-- The `update_material` system of src/main.rs applied to the single
material instance: refresh the resolution, then the power, rotation and
zoom animation branches in source order.  `t` is the elapsed time,
`dt` the frame delta. -/
noncomputable def update_material (t dt : ℝ) (win : ℝ × ℝ) (settings : SimSettings)
    (m : MandelbulbMaterial) : MandelbulbMaterial :=
  apply_zoom_anim t settings
    (apply_auto_rotation dt settings
      (apply_power_anim t settings { m with resolution := win }))

/-- One pointer-motion event handled by `mouse_controls` (src/main.rs
lines 162 to 173): yaw from `delta.x * 0.005`, pitch from
`-delta.y * 0.005`, post-multiplied onto the stored quaternion and
renormalized. -/
noncomputable def drag_rotate (ev : ℝ × ℝ) (m : MandelbulbMaterial) :
    MandelbulbMaterial :=
  { m with rotation :=
      (m.rotation * Quat.fromRotationY (ev.1 * 0.005) *
        Quat.fromRotationX (-ev.2 * 0.005)).normalize }

/-- The `mouse_controls` system of src/main.rs: no effect when the egui
context reports the pointer over an area or wanting pointer input, or
when the left button is not pressed; otherwise fold `drag_rotate` over
the motion events of the frame. -/
noncomputable def mouse_controls (pointer_over_area wants_pointer_input left_pressed : Bool)
    (motion : List (ℝ × ℝ)) (m : MandelbulbMaterial) : MandelbulbMaterial :=
  if pointer_over_area || wants_pointer_input then m
  else if left_pressed then motion.foldl (fun mat ev => drag_rotate ev mat) m
  else m

/-- Bevy winit update mode, restricted to the variants built by
`manage_rendering_mode`: `Continuous`, or `Reactive` with a wait
duration in seconds and the three event-reaction flags. -/
inductive UpdateMode where
  | continuous : UpdateMode
  | reactive (wait : ℝ)
      (react_to_device_events react_to_user_events react_to_window_events : Bool) :
      UpdateMode

/-- The two cadence fields of `WinitSettings` that `manage_rendering_mode`
writes. -/
structure WinitSettings where
  focused_mode : UpdateMode
  unfocused_mode : UpdateMode

/-- The `manage_rendering_mode` system of src/main.rs (lines 178 to 206):
continuous cadence in both focus states when any animation is active,
otherwise reactive polling at 1/60 s focused and 1 s unfocused with all
three event-reaction flags false. -/
noncomputable def manage_rendering_mode (sim : SimSettings) : WinitSettings :=
  if sim.animate_zoom = true ∨ sim.animate_power = true ∨ 0 < sim.rotation_speed then
    ⟨UpdateMode.continuous, UpdateMode.continuous⟩
  else
    ⟨UpdateMode.reactive (1 / 60) false false false,
      UpdateMode.reactive 1 false false false⟩

/-- Modelled from the spec: the slider widgets that `ui_controls` builds
(src/main.rs lines 241 to 381) belong to the egui library, whose code is
not part of this repository; per the spec, an out-of-range parameter
write through the control path is clamped to the nearest bound of the
range the source passes to the widget, never rejected.  A slider with
range `[lo, hi]` therefore stores `max lo (min v hi)`. -/
noncomputable def slider_set (lo hi v : ℝ) : ℝ := max lo (min v hi)

/-- The Power slider of `ui_controls`: range 1 to 16. -/
noncomputable def set_power (m : MandelbulbMaterial) (v : ℝ) : MandelbulbMaterial :=
  { m with power := slider_set 1 16 v }

/-- The Iterations slider of `ui_controls`: the `u32` field is edited
through an `f32` proxy on a slider with range 1 to 50 and stored back
with an `as u32` truncation. -/
noncomputable def set_mandel_iters (m : MandelbulbMaterial) (v : ℝ) : MandelbulbMaterial :=
  { m with mandel_iters := ⌊slider_set 1 50 v⌋₊ }

/-- The Ray Steps slider of `ui_controls`: `f32` proxy on range 10 to 300,
stored back with `as u32`. -/
noncomputable def set_ray_steps (m : MandelbulbMaterial) (v : ℝ) : MandelbulbMaterial :=
  { m with ray_steps := ⌊slider_set 10 300 v⌋₊ }

/-- The Max Dist slider of `ui_controls`: range 10 to 100. -/
noncomputable def set_max_dist (m : MandelbulbMaterial) (v : ℝ) : MandelbulbMaterial :=
  { m with max_dist := slider_set 10 100 v }

/-- The Zoom slider of `ui_controls`: range 0.1 to 10. -/
noncomputable def set_camera_zoom (m : MandelbulbMaterial) (v : ℝ) : MandelbulbMaterial :=
  { m with camera_zoom := slider_set 0.1 10 v }

/-- The Julia-enabled read of `ui_controls` (src/main.rs line 369): the
flag is the w component of the julia vector being greater than 0.5. -/
def julia_enabled (m : MandelbulbMaterial) : Prop := 0.5 < m.julia.w

/-- The Julia checkbox write of `ui_controls` (src/main.rs lines 370 to
372): on toggle, store exactly 1.0 when enabling and exactly 0.0 when
disabling in the w component. -/
def set_julia_enabled (m : MandelbulbMaterial) (b : Bool) : MandelbulbMaterial :=
  { m with julia := { m.julia with w := if b then 1.0 else 0.0 } }

/-- The `selected_text` match of the palette combo box in `ui_controls`
(src/main.rs lines 325 to 330). -/
def palette_selected_text (palette_id : ℕ) : String :=
  match palette_id with
  | 0 => "Standard"
  | 1 => "Fire (Red/Yellow)"
  | 2 => "Neon (Purple/Green)"
  | _ => "Unknown"

/-- The selectable entries of the palette combo box in `ui_controls`
(src/main.rs lines 332 to 334), as pairs of stored id and label. -/
def palette_options : List (ℕ × String) :=
  [(0, "Standard"), (2, "Fire"), (3, "Neon")]

/-- One orientation-mutating control-path step: either an
`update_material` tick or a `mouse_controls` invocation. -/
inductive ControlEvent where
  | tick (t dt : ℝ) (win : ℝ × ℝ) (settings : SimSettings) : ControlEvent
  | mouse (pointer_over_area wants_pointer_input left_pressed : Bool)
      (motion : List (ℝ × ℝ)) : ControlEvent

/-- Run one control-path step on the material. -/
noncomputable def applyEvent (m : MandelbulbMaterial) : ControlEvent → MandelbulbMaterial
  | ControlEvent.tick t dt win s => update_material t dt win s m
  | ControlEvent.mouse a w p evs => mouse_controls a w p evs m

/-- Run a finite sequence of control-path steps on the material. -/
noncomputable def applyEvents (m : MandelbulbMaterial) (evs : List ControlEvent) :
    MandelbulbMaterial :=
  evs.foldl applyEvent m

/-- Three-component float vector for shader points and directions. -/
structure V3 where
  x : ℝ
  y : ℝ
  z : ℝ

/-- Euclidean length of a `V3`. -/
noncomputable def V3.len (v : V3) : ℝ := Real.sqrt (v.x ^ 2 + v.y ^ 2 + v.z ^ 2)

/-- Two-argument arctangent, via the complex argument. -/
noncomputable def atan2 (y x : ℝ) : ℝ := Complex.arg ⟨x, y⟩

/-- The shader-side parameters the distance estimator and ray marcher
read from the uniform record. -/
structure ShaderParams where
  power : ℝ
  mandel_iters : ℕ
  ray_steps : ℕ
  max_dist : ℝ
  hit_threshold : ℝ
  julia : Vec4

/-- Modelled from the spec: the escape-time loop of the power-N bulb
distance estimator lives in assets/shaders/mandelbulb.wgsl, which is not
under src/.  Following section 4.1 of the spec, one state is the pair of
the iterate `z` and the radius derivative `dr`; each step stops early
once `|z|` exceeds the escape radius 2, otherwise converts to spherical
coordinates, updates `dr = power * r ^ (power - 1) * dr + 1`, raises the
radius to `power`, scales both angles by `power`, and converts back,
adding the constant `c`. -/
noncomputable def bulbLoop (c : V3) (power : ℝ) : ℕ → V3 × ℝ → V3 × ℝ
  | 0, s => s
  | n + 1, (z, dr) =>
    if 2 < z.len then (z, dr)
    else
      let r := z.len
      let theta := Real.arccos (z.z / r)
      let phi := atan2 z.y z.x
      let zr := r ^ power
      let theta2 := theta * power
      let phi2 := phi * power
      bulbLoop c power n
        (⟨zr * Real.sin theta2 * Real.cos phi2 + c.x,
          zr * Real.sin phi2 * Real.sin theta2 + c.y,
          zr * Real.cos theta2 + c.z⟩,
         power * r ^ (power - 1) * dr + 1)

/-- Modelled from the spec: `DistanceField.estimate` of section 4.1 (the
shader source is not under src/).  The additive constant is the marching
point in standard mode and the stored Julia constant when the packed
flag in the fourth julia component reads enabled (greater than 0.5, the
encoding of src/main.rs line 369); degenerate `r = 0` or `dr = 0` states
return a large distance instead of dividing by zero, the value 1000
standing in for the unspecified large constant. -/
noncomputable def distance_estimate (point : V3) (params : ShaderParams) : ℝ :=
  let c : V3 :=
    if 0.5 < params.julia.w then ⟨params.julia.x, params.julia.y, params.julia.z⟩
    else point
  let s := bulbLoop c params.power params.mandel_iters (point, 1)
  if s.1.len = 0 ∨ s.2 = 0 then 1000
  else 0.5 * Real.log s.1.len * s.1.len / s.2

/-- Outcome of one ray march: hit flag, final point, iteration count at
termination, accumulated distance traveled. -/
structure MarchResult where
  hit : Bool
  point : V3
  steps : ℕ
  traveled : ℝ

/-- Modelled from the spec: the sphere-tracing loop of
`RayMarcher.march`, section 4.2 (the shader source is not under src/).
The fuel argument is the remaining step budget; `steps` counts the
iterations already performed.  Each iteration evaluates the distance
estimator, reports a hit below `hit_threshold`, accumulates the
traveled distance and reports a miss once it exceeds `max_dist`,
otherwise advances the point by the estimate along the direction. -/
noncomputable def marchLoop (dir : V3) (params : ShaderParams) :
    ℕ → V3 → ℝ → ℕ → MarchResult
  | 0, cur, traveled, steps => ⟨false, cur, steps, traveled⟩
  | n + 1, cur, traveled, steps =>
    let d := distance_estimate cur params
    if d < params.hit_threshold then ⟨true, cur, steps + 1, traveled⟩
    else if params.max_dist < traveled + d then ⟨false, cur, steps + 1, traveled + d⟩
    else marchLoop dir params n
      ⟨cur.x + dir.x * d, cur.y + dir.y * d, cur.z + dir.z * d⟩
      (traveled + d) (steps + 1)

/-- Modelled from the spec: `RayMarcher.march` of section 4.2, starting
from the ray origin with zero traveled distance and a step budget of
`ray_steps`. -/
noncomputable def march (origin dir : V3) (params : ShaderParams) : MarchResult :=
  marchLoop dir params params.ray_steps origin 0 0

theorem apply_power_anim_rotation (t : ℝ) (s : SimSettings) (m : MandelbulbMaterial) :
    (apply_power_anim t s m).rotation = m.rotation := by
  unfold apply_power_anim
  split <;> rfl

theorem apply_zoom_anim_rotation (t : ℝ) (s : SimSettings) (m : MandelbulbMaterial) :
    (apply_zoom_anim t s m).rotation = m.rotation := by
  unfold apply_zoom_anim
  split <;> rfl

/-- A product of the two unit incremental rotations with a unit
quaternion has squared norm one. -/
theorem normSq_yaw_pitch_mul (a b : ℝ) (q : Quat) (h : q.normSq = 1) :
    (Quat.fromRotationY a * Quat.fromRotationX b * q).normSq = 1 := by
  rw [Quat.normSq_mul, Quat.normSq_mul, Quat.normSq_fromRotationY,
    Quat.normSq_fromRotationX, h]
  ring

theorem normSq_mul_yaw_pitch (a b : ℝ) (q : Quat) (h : q.normSq = 1) :
    (q * Quat.fromRotationY a * Quat.fromRotationX b).normSq = 1 := by
  rw [Quat.normSq_mul, Quat.normSq_mul, Quat.normSq_fromRotationY,
    Quat.normSq_fromRotationX, h]
  ring

theorem apply_auto_rotation_normSq (dt : ℝ) (s : SimSettings) (m : MandelbulbMaterial)
    (h : m.rotation.normSq = 1) : (apply_auto_rotation dt s m).rotation.normSq = 1 := by
  unfold apply_auto_rotation
  split
  · exact Quat.normSq_normalize _
      (by rw [normSq_yaw_pitch_mul _ _ _ h]; norm_num)
  · exact h

theorem update_material_normSq (t dt : ℝ) (win : ℝ × ℝ) (s : SimSettings)
    (m : MandelbulbMaterial) (h : m.rotation.normSq = 1) :
    (update_material t dt win s m).rotation.normSq = 1 := by
  unfold update_material
  rw [apply_zoom_anim_rotation]
  exact apply_auto_rotation_normSq _ _ _ (by rw [apply_power_anim_rotation]; exact h)

theorem drag_rotate_normSq (ev : ℝ × ℝ) (m : MandelbulbMaterial)
    (h : m.rotation.normSq = 1) : (drag_rotate ev m).rotation.normSq = 1 := by
  unfold drag_rotate
  exact Quat.normSq_normalize _ (by rw [normSq_mul_yaw_pitch _ _ _ h]; norm_num)

theorem foldl_drag_rotate_normSq (motion : List (ℝ × ℝ)) (m : MandelbulbMaterial)
    (h : m.rotation.normSq = 1) :
    (motion.foldl (fun mat ev => drag_rotate ev mat) m).rotation.normSq = 1 := by
  induction motion generalizing m with
  | nil => exact h
  | cons ev rest ih => exact ih _ (drag_rotate_normSq ev m h)

theorem mouse_controls_normSq (a w p : Bool) (motion : List (ℝ × ℝ))
    (m : MandelbulbMaterial) (h : m.rotation.normSq = 1) :
    (mouse_controls a w p motion m).rotation.normSq = 1 := by
  unfold mouse_controls
  split
  · exact h
  · split
    · exact foldl_drag_rotate_normSq motion m h
    · exact h

theorem applyEvent_normSq (m : MandelbulbMaterial) (ev : ControlEvent)
    (h : m.rotation.normSq = 1) : (applyEvent m ev).rotation.normSq = 1 := by
  cases ev with
  | tick t dt win s => exact update_material_normSq t dt win s m h
  | mouse a w p evs => exact mouse_controls_normSq a w p evs m h

theorem applyEvents_normSq (m : MandelbulbMaterial) (evs : List ControlEvent)
    (h : m.rotation.normSq = 1) : (applyEvents m evs).rotation.normSq = 1 := by
  unfold applyEvents
  induction evs generalizing m with
  | nil => exact h
  | cons ev rest ih => exact ih _ (applyEvent_normSq m ev h)

/-- C1: starting from a unit quaternion, after any finite sequence of
orientation mutations through `update_material` ticks and
`mouse_controls` drags, the stored orientation quaternion has squared
norm exactly one in the real-number model, so its norm stays within any
small fixed tolerance of 1: every mutation path renormalizes right
after composing the incremental rotation. -/
theorem orientation_norm_invariant (m : MandelbulbMaterial) (evs : List ControlEvent)
    (h : m.rotation.normSq = 1) :
    (applyEvents m evs).rotation.normSq = 1 ∧
      |(applyEvents m evs).rotation.length - 1| ≤ 1 / 1000000 := by
  have hs := applyEvents_normSq m evs h
  refine ⟨hs, ?_⟩
  rw [Quat.length_of_normSq_one _ hs]
  norm_num

/-- Witness for C1: the initial material with identity orientation and a
two-step sequence of one animation tick and one mouse drag. -/
theorem orientation_norm_invariant_witness :
    (applyEvents (initialMaterial (1280, 720))
        [ControlEvent.tick 1 0.016 (1280, 720) ⟨0.2, false, 1, false, 1⟩,
         ControlEvent.mouse false false true [(3, -4)]]).rotation.normSq = 1 ∧
      |(applyEvents (initialMaterial (1280, 720))
        [ControlEvent.tick 1 0.016 (1280, 720) ⟨0.2, false, 1, false, 1⟩,
         ControlEvent.mouse false false true [(3, -4)]]).rotation.length - 1| ≤
        1 / 1000000 :=
  orientation_norm_invariant _ _
    (by norm_num [initialMaterial, Quat.identity, Quat.normSq])

/-- An update mode re-renders on discrete external events when it is
reactive and at least one of its event-reaction flags is set. -/
def reacts_to_external_events : UpdateMode → Prop
  | UpdateMode.continuous => False
  | UpdateMode.reactive _ d u w => d = true ∨ u = true ∨ w = true

/-- C2 counterexample: with every animation disabled the focused idle
mode is reactive with a 1/60 s wait but all three event-reaction flags
false, so the system does not re-render on discrete external events
(resize, input) between polls, contrary to the claim. -/
theorem render_cadence_counterexample :
    (manage_rendering_mode ⟨0, false, 1, false, 1⟩).focused_mode =
      UpdateMode.reactive (1 / 60) false false false ∧
    ¬ reacts_to_external_events
        (manage_rendering_mode ⟨0, false, 1, false, 1⟩).focused_mode := by
  have hc : ¬(((⟨0, false, 1, false, 1⟩ : SimSettings).animate_zoom = true) ∨
      ((⟨0, false, 1, false, 1⟩ : SimSettings).animate_power = true) ∨
      0 < (⟨0, false, 1, false, 1⟩ : SimSettings).rotation_speed) := by
    simp
  unfold manage_rendering_mode
  rw [if_neg hc]
  exact ⟨rfl, by simp [reacts_to_external_events]⟩

/-- C2 (amended): the cadence is a function of the animation settings
alone — any enabled animation flag or positive rotation speed forces
continuous mode in both focus states; with all of them disabled the
modes are reactive with a 1/60 s wait focused and a 1 s wait unfocused,
with reaction to device, user and window events disabled. -/
theorem render_cadence (s : SimSettings) :
    (s.animate_zoom = true ∨ s.animate_power = true ∨ 0 < s.rotation_speed →
      manage_rendering_mode s = ⟨UpdateMode.continuous, UpdateMode.continuous⟩) ∧
    (s.animate_zoom = false → s.animate_power = false → s.rotation_speed ≤ 0 →
      manage_rendering_mode s =
        ⟨UpdateMode.reactive (1 / 60) false false false,
          UpdateMode.reactive 1 false false false⟩) := by
  constructor
  · intro h
    unfold manage_rendering_mode
    rw [if_pos h]
  · intro h1 h2 h3
    have hc : ¬(s.animate_zoom = true ∨ s.animate_power = true ∨ 0 < s.rotation_speed) := by
      simp [h1, h2, not_lt]
      exact h3
    unfold manage_rendering_mode
    rw [if_neg hc]

/-- Witness for C2 (amended) at a continuous and an idle instance. -/
theorem render_cadence_witness :
    manage_rendering_mode ⟨0.5, false, 1, false, 1⟩ =
      ⟨UpdateMode.continuous, UpdateMode.continuous⟩ ∧
    manage_rendering_mode ⟨0, false, 1, false, 1⟩ =
      ⟨UpdateMode.reactive (1 / 60) false false false,
        UpdateMode.reactive 1 false false false⟩ :=
  ⟨(render_cadence ⟨0.5, false, 1, false, 1⟩).1 (Or.inr (Or.inr (by norm_num))),
    (render_cadence ⟨0, false, 1, false, 1⟩).2 rfl rfl (le_refl 0)⟩

/-- C3: a slider write with range `[lo, hi]` clamps any out-of-range
value to the nearest bound and always lands inside the range (never an
error value); in particular writing 20 to the Power slider stores 16
and writing 0 to the Iterations slider stores 1, and the power and
iteration writes are exactly the range-1-to-16 and range-1-to-50
clamps. -/
theorem control_path_clamping (m : MandelbulbMaterial) (v lo hi : ℝ) (h : lo ≤ hi) :
    (v < lo → slider_set lo hi v = lo) ∧
    (hi < v → slider_set lo hi v = hi) ∧
    lo ≤ slider_set lo hi v ∧ slider_set lo hi v ≤ hi ∧
    (set_power m 20).power = 16 ∧
    (set_mandel_iters m 0).mandel_iters = 1 ∧
    (set_power m v).power = slider_set 1 16 v ∧
    (set_mandel_iters m v).mandel_iters = ⌊slider_set 1 50 v⌋₊ := by
  refine ⟨?_, ?_, ?_, ?_, ?_, ?_, rfl, rfl⟩
  · intro hv
    unfold slider_set
    rw [min_eq_left (le_trans (le_of_lt hv) h), max_eq_left (le_of_lt hv)]
  · intro hv
    unfold slider_set
    rw [min_eq_right (le_of_lt hv), max_eq_right h]
  · exact le_max_left lo _
  · exact max_le h (min_le_right v hi)
  · show slider_set 1 16 20 = 16
    unfold slider_set
    rw [min_eq_right (by norm_num : (16 : ℝ) ≤ 20), max_eq_right (by norm_num : (1 : ℝ) ≤ 16)]
  · show ⌊slider_set 1 50 0⌋₊ = 1
    unfold slider_set
    rw [min_eq_left (by norm_num : (0 : ℝ) ≤ 50), max_eq_left (by norm_num : (0 : ℝ) ≤ 1)]
    exact Nat.floor_one

/-- Witness for C3 on the initial material with the out-of-range writes
of the claim. -/
theorem control_path_clamping_witness :
    (1 : ℝ) ≤ 16 ∧
    (((20 : ℝ) < 1 → slider_set 1 16 20 = 1) ∧
      ((16 : ℝ) < 20 → slider_set 1 16 20 = 16) ∧
      (1 : ℝ) ≤ slider_set 1 16 20 ∧ slider_set 1 16 20 ≤ 16 ∧
      (set_power (initialMaterial (1280, 720)) 20).power = 16 ∧
      (set_mandel_iters (initialMaterial (1280, 720)) 0).mandel_iters = 1 ∧
      (set_power (initialMaterial (1280, 720)) 20).power = slider_set 1 16 20 ∧
      (set_mandel_iters (initialMaterial (1280, 720)) 20).mandel_iters =
        ⌊slider_set 1 50 20⌋₊) :=
  ⟨by norm_num, control_path_clamping (initialMaterial (1280, 720)) 20 1 16 (by norm_num)⟩

theorem apply_auto_rotation_power (dt : ℝ) (s : SimSettings) (m : MandelbulbMaterial) :
    (apply_auto_rotation dt s m).power = m.power := by
  unfold apply_auto_rotation
  split <;> rfl

theorem apply_zoom_anim_power (t : ℝ) (s : SimSettings) (m : MandelbulbMaterial) :
    (apply_zoom_anim t s m).power = m.power := by
  unfold apply_zoom_anim
  split <;> rfl

/-- When power animation is on, `update_material` stores the
exponentially mapped normalized sine. -/
theorem update_material_power_of_anim (t dt : ℝ) (win : ℝ × ℝ) (s : SimSettings)
    (m : MandelbulbMaterial) (h : s.animate_power = true) :
    (update_material t dt win s m).power =
      (16 : ℝ) ^ (0.5 + 0.5 * Real.sin (t * 0.1 * s.power_speed)) := by
  unfold update_material
  rw [apply_zoom_anim_power, apply_auto_rotation_power]
  unfold apply_power_anim
  rw [if_pos h]

/-- When the rotation speed is positive, `update_material` pre-multiplies
the yaw and pitch increments of angle `rotation_speed * dt` and
renormalizes. -/
theorem update_material_rotation_of_pos (t dt : ℝ) (win : ℝ × ℝ) (s : SimSettings)
    (m : MandelbulbMaterial) (h : 0 < s.rotation_speed) :
    (update_material t dt win s m).rotation =
      (Quat.fromRotationY (s.rotation_speed * dt) *
        Quat.fromRotationX (s.rotation_speed * dt) * m.rotation).normalize := by
  unfold update_material
  rw [apply_zoom_anim_rotation]
  unfold apply_auto_rotation
  rw [if_pos h]
  rw [apply_power_anim_rotation]

/-- C4: when power animation is enabled, each control tick normalizes a
sine of the elapsed time scaled by the power-speed factor into [0, 1]
and stores `power = 16 ^ normalized`; the animated power therefore lies
in the domain [1, 16]. -/
theorem power_animation_bounds (t dt : ℝ) (win : ℝ × ℝ) (s : SimSettings)
    (m : MandelbulbMaterial) (h : s.animate_power = true) :
    (update_material t dt win s m).power =
      (16 : ℝ) ^ (0.5 + 0.5 * Real.sin (t * 0.1 * s.power_speed)) ∧
    0 ≤ 0.5 + 0.5 * Real.sin (t * 0.1 * s.power_speed) ∧
    0.5 + 0.5 * Real.sin (t * 0.1 * s.power_speed) ≤ 1 ∧
    1 ≤ (update_material t dt win s m).power ∧
    (update_material t dt win s m).power ≤ 16 := by
  have heq := update_material_power_of_anim t dt win s m h
  have hlo : 0 ≤ 0.5 + 0.5 * Real.sin (t * 0.1 * s.power_speed) := by
    have := Real.neg_one_le_sin (t * 0.1 * s.power_speed)
    linarith
  have hhi : 0.5 + 0.5 * Real.sin (t * 0.1 * s.power_speed) ≤ 1 := by
    have := Real.sin_le_one (t * 0.1 * s.power_speed)
    linarith
  refine ⟨heq, hlo, hhi, ?_, ?_⟩
  · rw [heq]
    calc (1 : ℝ) = (16 : ℝ) ^ (0 : ℝ) := (Real.rpow_zero 16).symm
      _ ≤ (16 : ℝ) ^ (0.5 + 0.5 * Real.sin (t * 0.1 * s.power_speed)) :=
        Real.rpow_le_rpow_of_exponent_le (by norm_num) hlo
  · rw [heq]
    calc (16 : ℝ) ^ (0.5 + 0.5 * Real.sin (t * 0.1 * s.power_speed))
        ≤ (16 : ℝ) ^ (1 : ℝ) := Real.rpow_le_rpow_of_exponent_le (by norm_num) hhi
      _ = 16 := Real.rpow_one 16

/-- Witness for C4 at elapsed time 2 with power animation enabled. -/
theorem power_animation_bounds_witness :
    (update_material 2 0.016 (1280, 720) ⟨0, false, 1, true, 1⟩
        (initialMaterial (1280, 720))).power =
      (16 : ℝ) ^ (0.5 + 0.5 * Real.sin (2 * 0.1 * (1 : ℝ))) ∧
    0 ≤ 0.5 + 0.5 * Real.sin (2 * 0.1 * (1 : ℝ)) ∧
    0.5 + 0.5 * Real.sin (2 * 0.1 * (1 : ℝ)) ≤ 1 ∧
    1 ≤ (update_material 2 0.016 (1280, 720) ⟨0, false, 1, true, 1⟩
        (initialMaterial (1280, 720))).power ∧
    (update_material 2 0.016 (1280, 720) ⟨0, false, 1, true, 1⟩
        (initialMaterial (1280, 720))).power ≤ 16 :=
  power_animation_bounds 2 0.016 (1280, 720) ⟨0, false, 1, true, 1⟩
    (initialMaterial (1280, 720)) rfl

/-- C5: whenever the rotation speed is positive, a control tick composes
the incremental yaw rotation of angle `rotation_speed * dt` about the
vertical axis and the incremental pitch rotation of the same magnitude
about the horizontal axis into the stored orientation and renormalizes,
so a unit orientation stays unit. -/
theorem auto_rotation_step (t dt : ℝ) (win : ℝ × ℝ) (s : SimSettings)
    (m : MandelbulbMaterial) (h : 0 < s.rotation_speed) :
    (update_material t dt win s m).rotation =
      (Quat.fromRotationY (s.rotation_speed * dt) *
        Quat.fromRotationX (s.rotation_speed * dt) * m.rotation).normalize ∧
    (m.rotation.normSq = 1 → (update_material t dt win s m).rotation.normSq = 1) :=
  ⟨update_material_rotation_of_pos t dt win s m h,
    fun h1 => update_material_normSq t dt win s m h1⟩

/-- Witness for C5 with rotation speed 1 and delta time 2 on the initial
material. -/
theorem auto_rotation_step_witness :
    (update_material 0 2 (1280, 720) ⟨1, false, 1, false, 1⟩
        (initialMaterial (1280, 720))).rotation =
      (Quat.fromRotationY ((1 : ℝ) * 2) * Quat.fromRotationX ((1 : ℝ) * 2) *
        (initialMaterial (1280, 720)).rotation).normalize ∧
    ((initialMaterial (1280, 720)).rotation.normSq = 1 →
      (update_material 0 2 (1280, 720) ⟨1, false, 1, false, 1⟩
        (initialMaterial (1280, 720))).rotation.normSq = 1) :=
  auto_rotation_step 0 2 (1280, 720) ⟨1, false, 1, false, 1⟩
    (initialMaterial (1280, 720)) (by norm_num)

/-- C6: pointer motion rotates the fractal only while the left button is
held and the pointer is not captured by the egui surface: each motion
delta becomes a yaw increment proportional to dx and a pitch increment
proportional to -dy at the fixed 0.005 sensitivity, post-multiplied
into the stored orientation; with the pointer over the control surface,
with egui wanting pointer input, or without the button held, the
material is unchanged. -/
theorem mouse_drag_rotation (a w p : Bool) (motion : List (ℝ × ℝ)) (dx dy : ℝ)
    (m : MandelbulbMaterial) :
    mouse_controls true w p motion m = m ∧
    mouse_controls a true p motion m = m ∧
    mouse_controls a w false motion m = m ∧
    mouse_controls false false true motion m =
      motion.foldl (fun mat ev => drag_rotate ev mat) m ∧
    (drag_rotate (dx, dy) m).rotation =
      (m.rotation * Quat.fromRotationY (dx * 0.005) *
        Quat.fromRotationX (-dy * 0.005)).normalize := by
  refine ⟨?_, ?_, ?_, ?_, rfl⟩
  · simp [mouse_controls]
  · simp [mouse_controls]
  · cases a <;> cases w <;> simp [mouse_controls]
  · simp [mouse_controls]

/-- C7: the Julia flag lives in the fourth component of the julia
vector: enabling writes exactly 1.0, disabling writes exactly 0.0, and
the enabled state reads back as that component exceeding 0.5. -/
theorem julia_flag_encoding (m : MandelbulbMaterial) (b : Bool) :
    (set_julia_enabled m true).julia.w = 1 ∧
    (set_julia_enabled m false).julia.w = 0 ∧
    (julia_enabled (set_julia_enabled m b) ↔ b = true) := by
  refine ⟨by simp [set_julia_enabled]; norm_num, by simp [set_julia_enabled]; norm_num, ?_⟩
  cases b <;> simp [julia_enabled, set_julia_enabled] <;> norm_num

/-- Each `marchLoop` run performs at most as many iterations as its fuel
and ends by hit, by exceeding the distance budget, or by exhausting the
fuel. -/
theorem marchLoop_bound (dir : V3) (params : ShaderParams) :
    ∀ (fuel : ℕ) (cur : V3) (traveled : ℝ) (steps : ℕ),
      (marchLoop dir params fuel cur traveled steps).steps ≤ steps + fuel ∧
      ((marchLoop dir params fuel cur traveled steps).hit = true ∨
        params.max_dist < (marchLoop dir params fuel cur traveled steps).traveled ∨
        (marchLoop dir params fuel cur traveled steps).steps = steps + fuel) := by
  intro fuel
  induction fuel with
  | zero =>
    intro cur traveled steps
    simp [marchLoop]
  | succ n ih =>
    intro cur traveled steps
    rw [marchLoop]
    split
    · constructor
      · simp
      · left
        rfl
    · split
      · constructor
        · simp
        · right
          left
          simpa using (by assumption : params.max_dist < traveled + distance_estimate cur params)
      · have h := ih ⟨cur.x + dir.x * distance_estimate cur params,
          cur.y + dir.y * distance_estimate cur params,
          cur.z + dir.z * distance_estimate cur params⟩
          (traveled + distance_estimate cur params) (steps + 1)
        constructor
        · calc (marchLoop dir params n _ _ _).steps ≤ steps + 1 + n := h.1
            _ = steps + (n + 1) := by omega
        · rcases h.2 with h2 | h2 | h2
          · left; exact h2
          · right; left; exact h2
          · right; right
            rw [h2]
            omega

/-- C8: for every origin, direction and parameter record, the
spec-modelled `march` performs at most `ray_steps` iterations, and its
run ends by a surface hit, by the accumulated traveled distance
exceeding `max_dist`, or by exhausting the full step budget — being a
fuel-bounded recursion it admits no unbounded loop. -/
theorem march_terminates (origin dir : V3) (params : ShaderParams) :
    (march origin dir params).steps ≤ params.ray_steps ∧
    ((march origin dir params).hit = true ∨
      params.max_dist < (march origin dir params).traveled ∨
      (march origin dir params).steps = params.ray_steps) := by
  have h := marchLoop_bound dir params params.ray_steps origin 0 0
  unfold march
  simpa using h

/-- C9: the palette combo box only offers the stored ids 0, 2 and 3; the
entry labeled Fire stores id 2, which the selected-text match displays
as the Neon label; the entry labeled Neon stores id 3, displayed as
Unknown; id 1 carries the Fire display label yet is never selectable,
and no Ice entry exists. -/
theorem palette_selector_mapping :
    palette_options.map Prod.fst = [0, 2, 3] ∧
    (2, "Fire") ∈ palette_options ∧
    palette_selected_text 2 = "Neon (Purple/Green)" ∧
    (3, "Neon") ∈ palette_options ∧
    palette_selected_text 3 = "Unknown" ∧
    palette_selected_text 1 = "Fire (Red/Yellow)" ∧
    1 ∉ palette_options.map Prod.fst ∧
    "Ice" ∉ palette_options.map Prod.snd := by
  refine ⟨rfl, ?_, rfl, ?_, rfl, rfl, ?_, ?_⟩
  · simp [palette_options]
  · simp [palette_options]
  · simp [palette_options]
  · simp [palette_options]

/-- A non-identity unit orientation (the pure y quaternion, a half-turn
about the vertical axis) used to separate the two composition orders. -/
def q_j : Quat := ⟨0, 1, 0, 0⟩

/-- The automatic-rotation path at rotation speed pi and delta time 1,
starting from orientation `q_j`. -/
noncomputable def autoTickResult : MandelbulbMaterial :=
  update_material 0 1 (1280, 720) ⟨Real.pi, false, 1, false, 1⟩
    { initialMaterial (1280, 720) with rotation := q_j }

/-- The pointer-drag path with one motion event whose yaw and pitch
angles also come out to pi, starting from orientation `q_j`. -/
noncomputable def dragTickResult : MandelbulbMaterial :=
  mouse_controls false false true [(200 * Real.pi, -(200 * Real.pi))]
    { initialMaterial (1280, 720) with rotation := q_j }

theorem fromRotationY_pi : Quat.fromRotationY Real.pi = ⟨0, 1, 0, 0⟩ := by
  simp [Quat.fromRotationY, Real.sin_pi_div_two, Real.cos_pi_div_two]

theorem fromRotationX_pi : Quat.fromRotationX Real.pi = ⟨1, 0, 0, 0⟩ := by
  simp [Quat.fromRotationX, Real.sin_pi_div_two, Real.cos_pi_div_two]

theorem normalize_unit_x : (Quat.mk 1 0 0 0).normalize = ⟨1, 0, 0, 0⟩ := by
  have h : (Quat.mk 1 0 0 0).length = 1 :=
    Quat.length_of_normSq_one _ (by norm_num [Quat.normSq])
  simp [Quat.normalize, h]

theorem normalize_neg_unit_x : (Quat.mk (-1) 0 0 0).normalize = ⟨-1, 0, 0, 0⟩ := by
  have h : (Quat.mk (-1) 0 0 0).length = 1 :=
    Quat.length_of_normSq_one _ (by norm_num [Quat.normSq])
  simp [Quat.normalize, h]

/-- C10: the two orientation-mutation paths compose on opposite sides of
the stored quaternion — the automatic tick pre-multiplies the yaw and
pitch increments while the pointer drag post-multiplies them — and at
the non-identity unit orientation `q_j` the same pi yaw and pi pitch
increments produce different orientations through the two paths. -/
theorem rotation_composition_sides_differ :
    q_j ≠ Quat.identity ∧
    autoTickResult.rotation =
      (Quat.fromRotationY (Real.pi * 1) * Quat.fromRotationX (Real.pi * 1) *
        q_j).normalize ∧
    dragTickResult.rotation =
      (q_j * Quat.fromRotationY (200 * Real.pi * 0.005) *
        Quat.fromRotationX (-(-(200 * Real.pi)) * 0.005)).normalize ∧
    autoTickResult.rotation = ⟨1, 0, 0, 0⟩ ∧
    dragTickResult.rotation = ⟨-1, 0, 0, 0⟩ ∧
    autoTickResult.rotation ≠ dragTickResult.rotation := by
  have hne : q_j ≠ Quat.identity := by
    intro h
    have := congrArg Quat.y h
    simp [q_j, Quat.identity] at this
  have hangle1 : Real.pi * 1 = Real.pi := mul_one Real.pi
  have hangle2 : 200 * Real.pi * 0.005 = Real.pi := by ring
  have hangle3 : -(-(200 * Real.pi)) * 0.005 = Real.pi := by ring
  have hauto : autoTickResult.rotation =
      (Quat.fromRotationY (Real.pi * 1) * Quat.fromRotationX (Real.pi * 1) *
        q_j).normalize := by
    unfold autoTickResult
    exact update_material_rotation_of_pos 0 1 (1280, 720) ⟨Real.pi, false, 1, false, 1⟩
      { initialMaterial (1280, 720) with rotation := q_j } Real.pi_pos
  have hdrag : dragTickResult.rotation =
      (q_j * Quat.fromRotationY (200 * Real.pi * 0.005) *
        Quat.fromRotationX (-(-(200 * Real.pi)) * 0.005)).normalize := by
    unfold dragTickResult
    simp [mouse_controls, drag_rotate]
  have hprod1 : Quat.fromRotationY (Real.pi * 1) * Quat.fromRotationX (Real.pi * 1) *
      q_j = Quat.mk 1 0 0 0 := by
    rw [hangle1, fromRotationY_pi, fromRotationX_pi]
    show Quat.mul (Quat.mul ⟨0, 1, 0, 0⟩ ⟨1, 0, 0, 0⟩) ⟨0, 1, 0, 0⟩ = _
    norm_num [Quat.mul, q_j]
  have hprod2 : q_j * Quat.fromRotationY (200 * Real.pi * 0.005) *
      Quat.fromRotationX (-(-(200 * Real.pi)) * 0.005) = Quat.mk (-1) 0 0 0 := by
    rw [hangle2, hangle3, fromRotationY_pi, fromRotationX_pi]
    show Quat.mul (Quat.mul ⟨0, 1, 0, 0⟩ ⟨0, 1, 0, 0⟩) ⟨1, 0, 0, 0⟩ = _
    norm_num [Quat.mul, q_j]
  have hval1 : autoTickResult.rotation = ⟨1, 0, 0, 0⟩ := by
    rw [hauto, hprod1, normalize_unit_x]
  have hval2 : dragTickResult.rotation = ⟨-1, 0, 0, 0⟩ := by
    rw [hdrag, hprod2, normalize_neg_unit_x]
  refine ⟨hne, hauto, hdrag, hval1, hval2, ?_⟩
  rw [hval1, hval2]
  intro h
  have := congrArg Quat.x h
  simp at this
  norm_num at this

end Fractal3D
